import Mathlib

/-!
Verification of the VPN Session Supervisor of a GlobalProtect desktop client
(`src-tauri/src/lib.rs`).  The Rust source is shallowly embedded: each Tauri
command becomes a Lean function over an explicit environment (outcomes of the
OS calls it performs: subprocess execution, filesystem operations) and an
explicit supervisor state (the mutex-guarded `Option<Child>`), returning its
`Result` value together with the successor state and a trace of the side
effects it performed.
-/

namespace GP

instance {ε α : Type} [DecidableEq ε] [DecidableEq α] : DecidableEq (Except ε α) := fun x y =>
  match x, y with
  | .ok a, .ok b =>
    if h : a = b then .isTrue (by rw [h]) else .isFalse (by simp [h])
  | .error a, .error b =>
    if h : a = b then .isTrue (by rw [h]) else .isFalse (by simp [h])
  | .ok _, .error _ => .isFalse (by simp)
  | .error _, .ok _ => .isFalse (by simp)

/-- Substring test, embedding Rust `str::contains` (used on the
`ip addr show` output at `lib.rs:148` and `lib.rs:299`). -/
def strContains (hay pat : String) : Bool :=
  decide (pat.toList <:+: hay.toList)

/-- The persisted configuration record (`VpnConfig` in `lib.rs:11-18`). -/
structure VpnConfig where
  portal : String
  username : String
  password : Option String
  notifications_enabled : Option Bool
  auto_connect : Option Bool
deriving Repr, DecidableEq

/-- The supervisor state: the mutex-guarded `Option<Child>` of `VpnState`
(`lib.rs:6-9`).  Children are identified by process ids (`Nat`); `nextPid`
models the OS handing out a fresh pid on spawn; `poisoned` models the mutex
being poisoned, in which case `.lock()` returns `Err`. -/
structure VpnState where
  child : Option Nat
  poisoned : Bool
  nextPid : Nat
deriving Repr, DecidableEq

/-- Environment for `get_vpn_status` and the monitor probe: the outcome of
executing `pgrep -f openconnect` (`.error` = the command could not be run,
`.ok b` = it ran and `b` is `status.success()`), and of `ip addr show`
(`.ok out` = it ran and `out` is its stdout). -/
structure StatusEnv where
  pgrepRun : Except String Bool
  ipAddrRun : Except String String
deriving Repr, DecidableEq

/-- Embedding of the `get_vpn_status` command (`lib.rs:126-149`): a pgrep
execution error propagates as `Err` (the `map_err(...)?` at `lib.rs:133`);
a pgrep miss short-circuits to `Ok(false)`; otherwise an `ip addr show`
execution error propagates, else the result is whether the output contains
`"tun"`.  The state argument is ignored (`_state` in the source). -/
def get_vpn_status (env : StatusEnv) (_state : VpnState) : Except String Bool :=
  match env.pgrepRun with
  | .error e => .error e
  | .ok pgrepSuccess =>
    if !pgrepSuccess then .ok false
    else
      match env.ipAddrRun with
      | .error e => .error e
      | .ok out => .ok (strContains out "tun")

/-- Embedding of the monitor thread's per-tick `connected` computation
(`lib.rs:293-303`): both probe errors are absorbed by `unwrap_or(false)`. -/
def monitorConnected (env : StatusEnv) : Bool :=
  let is_running := match env.pgrepRun with | .ok b => b | .error _ => false
  let has_tun :=
    match env.ipAddrRun with
    | .ok out => strContains out "tun"
    | .error _ => false
  is_running && has_tun

/-- Split a character list at newlines (for the spec-side reading of
`ip addr show` output as a list of lines). -/
def splitLines : List Char → List (List Char)
  | [] => [[]]
  | c :: cs =>
    if c = '\n' then [] :: splitLines cs
    else
      match splitLines cs with
      | [] => [[c]]
      | l :: ls => (c :: l) :: ls

/-- Extract the interface name from one line of `ip addr show` output:
interface header lines have the shape `<index>: <name>: <flags...>`, so a
line yields a name exactly when it starts with a nonempty digit run followed
by `": "`; the name is everything up to the next `':'`. -/
def lineName (l : List Char) : Option (List Char) :=
  match l.takeWhile Char.isDigit, (l.drop (l.takeWhile Char.isDigit).length) with
  | [], _ => none
  | _ :: _, ':' :: ' ' :: rest => some (rest.takeWhile (fun c => c ≠ ':'))
  | _ :: _, _ => none

/-- A second definition for the refinement claim about the tun probe,
following the spec's words: the names of the network interfaces listed in
the `ip addr show` output (the spec's "any active network interface's
name"). -/
def specInterfaceNames (out : String) : List (List Char) :=
  (splitLines out.toList).filterMap lineName

/-- The spec-side tun probe: some interface name contains `"tun"`. -/
def specTunProbe (out : String) : Bool :=
  (specInterfaceNames out).any (fun n => strContains (String.mk n) "tun")

/-- The source-side tun probe as `lib.rs:148` computes it: the whole output
contains `"tun"`. -/
def codeTunProbe (out : String) : Bool :=
  strContains out "tun"

/-- Observable side effects of the supervisor commands. -/
inductive Event where
  /-- A kill request (Child::kill) on a retained handle (`lib.rs:40`, `lib.rs:120`). -/
  | kill (h : Nat)
  /-- Spawn of the long-running client (`lib.rs:80-82`): program and argv. -/
  | spawn (prog : String) (args : List String)
  /-- Write to the child's stdin (`lib.rs:88`); `ok` records whether the
  ignored `writeln!` result was a success. -/
  | writeStdin (s : String) (ok : Bool)
  /-- The stdin pipe handle is dropped, so the child sees EOF
  (end of the `if let` scope at `lib.rs:89`). -/
  | closeStdin
  /-- Storing the new handle into the guard (`lib.rs:92`). -/
  | store (h : Nat)
  /-- A fire-and-await subprocess (`Command::status`), with its ignored
  outcome (`.error` = could not run, `.ok b` = ran, `b` = success). -/
  | ranCmd (prog : String) (args : List String) (res : Except String Bool)
  /-- A sleep (thread::sleep) in milliseconds (`lib.rs:107`). -/
  | sleepMs (n : Nat)
deriving Repr, DecidableEq

/-- Environment for `connect_vpn`: outcomes of its fallible OS operations,
in source order (`lib.rs:54-88`). -/
structure ConnectEnv where
  /-- Outcome of resolving the app data directory (`lib.rs:54-57`). -/
  appDataDir : Except String String
  /-- Outcome of creating the logs directory (`lib.rs:59`). -/
  createDirAll : Except String Unit
  /-- Outcome of opening the log file for append (`lib.rs:62-66`). -/
  openLog : Except String Unit
  /-- Outcome of cloning the log handle for stderr (`lib.rs:74`). -/
  tryClone : Except String Unit
  /-- Outcome of spawning the child process (`lib.rs:80-82`). -/
  spawn : Except String Unit
  /-- Outcome of the ignored password `writeln!` (`lib.rs:88`). -/
  writeOk : Bool
deriving Repr, DecidableEq

/-- The argv handed to `sudo` when spawning the client (`lib.rs:45-51`). -/
def connectArgs (config : VpnConfig) : List String :=
  ["openconnect", "--protocol=gp", "--passwd-on-stdin",
   config.portal, "--user", config.username]

/-- Embedding of the `connect_vpn` command (`lib.rs:30-95`).  In source
order: lock the mutex (poisoned → `Err "Failed to lock state"` with nothing
touched); `take()` and kill any existing child; resolve the app data dir,
create the log directory, open the log file, clone it (each error
propagating, with the handle already taken); spawn; on spawn success, if a
password is present write it newline-terminated to the child's stdin
(result ignored) and drop the stdin handle; store the new handle.
Returns (result, successor state, event trace). -/
def connect_vpn (config : VpnConfig) (env : ConnectEnv) (s : VpnState) :
    Except String Unit × VpnState × List Event :=
  if s.poisoned then (.error "Failed to lock state", s, [])
  else
    let killEvs : List Event :=
      match s.child with
      | some h => [.kill h]
      | none => []
    let s1 : VpnState := { s with child := none }
    match env.appDataDir with
    | .error e => (.error e, s1, killEvs)
    | .ok _ =>
      match env.createDirAll with
      | .error e => (.error e, s1, killEvs)
      | .ok _ =>
        match env.openLog with
        | .error e => (.error ("Failed to open log file: " ++ e), s1, killEvs)
        | .ok _ =>
          match env.tryClone with
          | .error e => (.error e, s1, killEvs)
          | .ok _ =>
            match env.spawn with
            | .error e => (.error ("Failed to start openconnect: " ++ e), s1, killEvs)
            | .ok _ =>
              let pid := s.nextPid
              let pwEvs : List Event :=
                match config.password with
                | some p => [.writeStdin (p ++ "\n") env.writeOk, .closeStdin]
                | none => []
              (.ok (), { s1 with child := some pid, nextPid := pid + 1 },
               killEvs ++ [.spawn "sudo" (connectArgs config)] ++ pwEvs ++ [.store pid])

/-- Environment for `disconnect_vpn`: the ignored outcomes of the two
privileged `pkill` invocations (`lib.rs:100-116`). -/
structure DisconnectEnv where
  softKill : Except String Bool
  hardKill : Except String Bool
deriving Repr, DecidableEq

/-- Embedding of the `disconnect_vpn` command (`lib.rs:97-124`).  In source
order: run `sudo -n /usr/bin/pkill -f openconnect` (outcome ignored), sleep
300 ms, run `sudo -n /usr/bin/pkill -9 -f openconnect` (outcome ignored),
then lock the mutex (poisoned → `Err`), kill and drop any retained handle,
and return `Ok`. -/
def disconnect_vpn (env : DisconnectEnv) (s : VpnState) :
    Except String Unit × VpnState × List Event :=
  let killCmds : List Event :=
    [.ranCmd "sudo" ["-n", "/usr/bin/pkill", "-f", "openconnect"] env.softKill,
     .sleepMs 300,
     .ranCmd "sudo" ["-n", "/usr/bin/pkill", "-9", "-f", "openconnect"] env.hardKill]
  if s.poisoned then (.error "Failed to lock state", s, killCmds)
  else
    match s.child with
    | some h => (.ok (), { s with child := none }, killCmds ++ [.kill h])
    | none => (.ok (), s, killCmds)

/-- A sequence of `connect_vpn` calls (serialized, as the supervisor's mutex
serializes them), accumulating the event trace. -/
def runConnects : List (VpnConfig × ConnectEnv) → VpnState → VpnState × List Event
  | [], s => (s, [])
  | (config, env) :: rest, s =>
    let r := connect_vpn config env s
    let rr := runConnects rest r.2.1
    (rr.1, r.2.2 ++ rr.2)

/-- A sequence of `disconnect_vpn` calls, collecting each call's result. -/
def runDisconnects : List DisconnectEnv → VpnState → List (Except String Unit) × VpnState
  | [], s => ([], s)
  | env :: rest, s =>
    let r := disconnect_vpn env s
    let rr := runDisconnects rest r.2.1
    (r.1 :: rr.1, rr.2)

/-- Environment of one monitor tick (`lib.rs:305-362`): the config read back
from disk on a transition (`None` = file absent or unparsable), whether
`icons/connected.png` loads, and whether the tray lookup succeeds. -/
structure TickEnv where
  cfgRead : Option VpnConfig
  iconLoadOk : Bool
  trayFound : Bool
deriving Repr, DecidableEq

/-- UI side effects of the monitor thread. -/
inductive MEvent where
  /-- Menu text update (`lib.rs:311`), performed every tick. -/
  | setText (s : String)
  /-- An OS notification (`lib.rs:339-343`). -/
  | notify (title body : String)
  /-- Tray icon swapped to `icons/connected.png` (`lib.rs:349-353`). -/
  | setIconConnected
  /-- Tray icon reset to the default icon (`lib.rs:356-358`). -/
  | setIconDefault
deriving Repr, DecidableEq

/-- One tick of the monitor loop body after the probe (`lib.rs:305-362`),
given the previous `last_connected` and this tick's derived `connected`.
The menu text is set every tick; only when `connected ≠ last_connected` are
the config re-read, at most one notification dispatched (none when
`notifications_enabled` is `Some false`), the icon swapped (skipped when the
connected icon fails to load or the tray is not found), and `last_connected`
committed.  Returns (events, new `last_connected`). -/
def monitorTick (env : TickEnv) (last connected : Bool) : List MEvent × Bool :=
  let text := if connected then "Status: Connected ✅" else "Status: Disconnected ❌"
  if connected = last then ([.setText text], last)
  else
    let notifOn := (env.cfgRead.bind (fun c => c.notifications_enabled)).getD true
    let notifEvs : List MEvent :=
      if notifOn then
        let title := if connected then "VPN Connected" else "VPN Disconnected"
        let body :=
          if connected then
            "Successfully connected to " ++
              ((env.cfgRead.map (fun c => c.portal)).getD "portal")
          else "The VPN connection has been closed."
        [.notify title body]
      else []
    let iconEvs : List MEvent :=
      if env.trayFound then
        if connected then
          if env.iconLoadOk then [.setIconConnected] else []
        else [.setIconDefault]
      else []
    (.setText text :: notifEvs ++ iconEvs, connected)

/-- The monitor over a sequence of probe results (same environment each
tick), threading `last_connected` and concatenating the events. -/
def runMonitor (env : TickEnv) (last : Bool) : List Bool → List MEvent × Bool
  | [] => ([], last)
  | c :: rest =>
    let t := monitorTick env last c
    let r := runMonitor env t.2 rest
    (t.1 ++ r.1, r.2)

/-! ### JSON codec

`save_config`/`load_config` delegate serialization to `serde_json`
(`to_string` at `lib.rs:161`, `from_str` at `lib.rs:178`).  The codec is
embedded concretely: the encoder reproduces `serde_json`'s output for the
derived `Serialize` instance (fields in declaration order, `Option` as the
value or `null`, strings escaped with `\"`, `\\`, `\b`, `\t`, `\n`, `\f`,
`\r` and `\u00XX` lowercase hex for other control characters), and the
decoder is a recursive-descent parser with `serde`'s field semantics
(any field order, duplicate known field rejected, unknown fields ignored,
missing `Option` fields defaulting to `None`, type mismatches rejected). -/

def lbrace : Char := Char.ofNat 123

def rbrace : Char := Char.ofNat 125

def lit (s : String) : List Char := s.toList

def hexDigit (n : Nat) : Char :=
  if n < 10 then Char.ofNat (48 + n) else Char.ofNat (87 + n)

/-- Escape one character as `serde_json` does. -/
def escChar (c : Char) : List Char :=
  if c = '"' then ['\\', '"']
  else if c = '\\' then ['\\', '\\']
  else if c.toNat < 32 then
    if c = Char.ofNat 8 then ['\\', 'b']
    else if c = '\t' then ['\\', 't']
    else if c = '\n' then ['\\', 'n']
    else if c = Char.ofNat 12 then ['\\', 'f']
    else if c = '\r' then ['\\', 'r']
    else ['\\', 'u', '0', '0', hexDigit (c.toNat / 16), hexDigit (c.toNat % 16)]
  else [c]

def escapeList : List Char → List Char
  | [] => []
  | c :: cs => escChar c ++ escapeList cs

def renderString (s : String) : List Char :=
  '"' :: (escapeList s.toList ++ ['"'])

def renderOptStr : Option String → List Char
  | none => lit "null"
  | some s => renderString s

def renderOptBool : Option Bool → List Char
  | none => lit "null"
  | some true => lit "true"
  | some false => lit "false"

/-- The string serde_json emits for a `VpnConfig`, as a character list. -/
def encodeConfig (c : VpnConfig) : List Char :=
  lbrace :: (lit "\"portal\":" ++ renderString c.portal
    ++ lit ",\"username\":" ++ renderString c.username
    ++ lit ",\"password\":" ++ renderOptStr c.password
    ++ lit ",\"notifications_enabled\":" ++ renderOptBool c.notifications_enabled
    ++ lit ",\"auto_connect\":" ++ renderOptBool c.auto_connect
    ++ [rbrace])

def toJsonString (c : VpnConfig) : String := String.mk (encodeConfig c)

def hexVal (c : Char) : Option Nat :=
  if 48 ≤ c.toNat ∧ c.toNat ≤ 57 then some (c.toNat - 48)
  else if 97 ≤ c.toNat ∧ c.toNat ≤ 102 then some (c.toNat - 87)
  else if 65 ≤ c.toNat ∧ c.toNat ≤ 70 then some (c.toNat - 55)
  else none

def unescOne (c : Char) : Option Char :=
  if c = '"' then some '"'
  else if c = '\\' then some '\\'
  else if c = '/' then some '/'
  else if c = 'b' then some (Char.ofNat 8)
  else if c = 'f' then some (Char.ofNat 12)
  else if c = 'n' then some '\n'
  else if c = 'r' then some '\r'
  else if c = 't' then some '\t'
  else none

/-- Parse a JSON string body (after the opening quote), returning the
unescaped content and the remainder after the closing quote. -/
def parseStringBody : List Char → Option (List Char × List Char)
  | [] => none
  | '"' :: rest => some ([], rest)
  | '\\' :: 'u' :: d1 :: d2 :: d3 :: d4 :: rest =>
    match hexVal d1, hexVal d2, hexVal d3, hexVal d4 with
    | some a, some b, some c2, some d =>
      match parseStringBody rest with
      | some (s, r) => some (Char.ofNat (((a * 16 + b) * 16 + c2) * 16 + d) :: s, r)
      | none => none
    | _, _, _, _ => none
  | '\\' :: e :: rest =>
    match unescOne e with
    | some c2 =>
      match parseStringBody rest with
      | some (s, r) => some (c2 :: s, r)
      | none => none
    | none => none
  | c :: rest =>
    match parseStringBody rest with
    | some (s, r) => some (c :: s, r)
    | none => none

/-- JSON values that can appear in a `VpnConfig` object. -/
inductive JVal where
  | str (s : String)
  | boolean (b : Bool)
  | null
deriving Repr, DecidableEq

def parseValue : List Char → Option (JVal × List Char)
  | '"' :: rest =>
    match parseStringBody rest with
    | some (s, r) => some (.str (String.mk s), r)
    | none => none
  | 't' :: 'r' :: 'u' :: 'e' :: rest => some (.boolean true, rest)
  | 'f' :: 'a' :: 'l' :: 's' :: 'e' :: rest => some (.boolean false, rest)
  | 'n' :: 'u' :: 'l' :: 'l' :: rest => some (.null, rest)
  | _ => none

/-- Fields seen so far while deserializing a `VpnConfig` object. -/
structure CfgFields where
  portal : Option String := none
  username : Option String := none
  password : Option (Option String) := none
  notifications_enabled : Option (Option Bool) := none
  auto_connect : Option (Option Bool) := none
deriving Repr, DecidableEq

def asStr : JVal → Option String
  | .str s => some s
  | _ => none

def asOptStr : JVal → Option (Option String)
  | .str s => some (some s)
  | .null => some none
  | .boolean _ => none

def asOptBool : JVal → Option (Option Bool)
  | .boolean b => some (some b)
  | .null => some none
  | .str _ => none

/-- Record one `key: value` pair: duplicate known fields and type
mismatches are rejected, unknown fields ignored (`serde` defaults). -/
def setField (acc : CfgFields) (key : List Char) (v : JVal) : Option CfgFields :=
  if key = lit "portal" then
    match acc.portal, asStr v with
    | none, some s => some { acc with portal := some s }
    | _, _ => none
  else if key = lit "username" then
    match acc.username, asStr v with
    | none, some s => some { acc with username := some s }
    | _, _ => none
  else if key = lit "password" then
    match acc.password, asOptStr v with
    | none, some s => some { acc with password := some s }
    | _, _ => none
  else if key = lit "notifications_enabled" then
    match acc.notifications_enabled, asOptBool v with
    | none, some b => some { acc with notifications_enabled := some b }
    | _, _ => none
  else if key = lit "auto_connect" then
    match acc.auto_connect, asOptBool v with
    | none, some b => some { acc with auto_connect := some b }
    | _, _ => none
  else some acc

/-- Outcome of parsing one `key: value` pair and its separator. -/
inductive PairStep where
  | done (acc : CfgFields)
  | more (rest : List Char) (acc : CfgFields)
deriving Repr, DecidableEq

/-- Parse one `key: value` pair: a pair followed by `,` continues with the
remainder, a pair followed by the closing brace at end of input finishes. -/
def parsePairStep (cs : List Char) (acc : CfgFields) : Option PairStep :=
  match cs with
  | '"' :: rest =>
    match parseStringBody rest with
    | none => none
    | some (key, r1) =>
      match r1 with
      | ':' :: r2 =>
        match parseValue r2 with
        | none => none
        | some (v, r3) =>
          match setField acc key v with
          | none => none
          | some acc2 =>
            match r3 with
            | ',' :: r4 => some (.more r4 acc2)
            | [c] => if c = rbrace then some (.done acc2) else none
            | _ => none
      | _ => none
  | _ => none

/-- Parse the `key: value` pairs of the object, fuelled by an upper bound
on the number of pairs. -/
def parsePairs : Nat → List Char → CfgFields → Option CfgFields
  | 0, _, _ => none
  | fuel + 1, cs, acc =>
    match parsePairStep cs acc with
    | some (.done acc2) => some acc2
    | some (.more r4 acc2) => parsePairs fuel r4 acc2
    | none => none

/-- A parsed object yields a config iff the two mandatory fields were
present; absent `Option` fields default to `None`. -/
def finishCfg (acc : CfgFields) : Option VpnConfig :=
  match acc.portal, acc.username with
  | some p, some u =>
    some { portal := p, username := u,
           password := acc.password.getD none,
           notifications_enabled := acc.notifications_enabled.getD none,
           auto_connect := acc.auto_connect.getD none }
  | _, _ => none

def parseConfigList (cs : List Char) : Option VpnConfig :=
  match cs with
  | c :: rest =>
    if c = lbrace then
      match parsePairs (rest.length + 1) rest {} with
      | some acc => finishCfg acc
      | none => none
    else none
  | [] => none

/-- Embedding of serde_json deserialization of a `VpnConfig`. -/
def parseConfig (s : String) : Option VpnConfig := parseConfigList s.toList

/-! ### Config store -/

/-- The filesystem as an association list path ↦ contents; writes shadow. -/
def Fs : Type := List (String × String)

def fsRead (fs : Fs) (p : String) : Option String :=
  (fs.find? (fun e => e.1 == p)).map (fun e => e.2)

/-- Environment for `save_config`/`load_config`: the outcome of
`app_data_dir()`, of `create_dir_all`, of `fs::write`, and of
`read_to_string` on an existing file. -/
structure ConfigEnv where
  appDataDir : Except String String
  createDirAll : Except String Unit
  writeFile : Except String Unit
  readFile : Except String Unit
deriving Repr, DecidableEq

def configPath (appDir : String) : String := appDir ++ "/vpn_config.json"

/-- Embedding of `save_config` (`lib.rs:151-164`): resolve the app data
dir, create it, serialize (total for this record type), write the file
(whole-file overwrite).  Each failure propagates as `Err`. -/
def save_config (env : ConfigEnv) (config : VpnConfig) (fs : Fs) : Except String Fs :=
  match env.appDataDir with
  | .error e => .error e
  | .ok dir =>
    match env.createDirAll with
    | .error e => .error e
    | .ok _ =>
      match env.writeFile with
      | .error e => .error e
      | .ok _ => .ok ((configPath dir, toJsonString config) :: fs)

/-- The JSON value `serde_json` emits for an optional string field. -/
def optStrToJVal : Option String → JVal
  | some s => .str s
  | none => .null

/-- The JSON value `serde_json` emits for an optional boolean field. -/
def optBoolToJVal : Option Bool → JVal
  | some b => .boolean b
  | none => .null

/-- Classifier for notification events of the monitor. -/
def isNotifyEv : MEvent → Bool
  | .notify _ _ => true
  | _ => false

/-- Classifier for tray-icon events of the monitor. -/
def isIconEv : MEvent → Bool
  | .setIconConnected => true
  | .setIconDefault => true
  | _ => false

/-- Embedding of `load_config` (`lib.rs:166-180`): resolve the app data
dir; absent file → `Ok(None)`; read failure → `Err`; parse failure →
`Err`; otherwise `Ok(Some config)`. -/
def load_config (env : ConfigEnv) (fs : Fs) : Except String (Option VpnConfig) :=
  match env.appDataDir with
  | .error e => .error e
  | .ok dir =>
    match fsRead fs (configPath dir) with
    | none => .ok none
    | some content =>
      match env.readFile with
      | .error e => .error e
      | .ok _ =>
        match parseConfig content with
        | some c => .ok (some c)
        | none => .error "config parse error"

/-- C5 counterexample input: one interface named `eth0` whose attribute
lines mention `tunnel0` as an altname.  No interface name contains
`"tun"`, but the substring `"tun"` occurs in the output. -/
def ipOut0 : String := "1: eth0: <BROADCAST,MULTICAST> mtu 1500\n    altname tunnel0"

/-! ## Theorems -/

theorem splitLines_head_starts (cs : List Char) : ∃ t, (splitLines cs).headD [] ++ t = cs := by
  induction cs with
  | nil => exact ⟨[], rfl⟩
  | cons c cs ih =>
    by_cases hc : c = '\n'
    · exact ⟨c :: cs, by simp [splitLines, hc]⟩
    · rcases hsp : splitLines cs with _ | ⟨l0, ls⟩
      · exact ⟨cs, by simp [splitLines, hc, hsp]⟩
      · obtain ⟨t, ht⟩ := ih
        rw [hsp] at ht
        refine ⟨t, ?_⟩
        simp only [splitLines, hc, if_false, hsp, List.headD_cons, List.cons_append]
        simpa using ht

theorem splitLines_within (cs : List Char) : ∀ l ∈ splitLines cs, ∃ s t, s ++ l ++ t = cs := by
  induction cs with
  | nil =>
    intro l hl
    simp [splitLines] at hl
    exact ⟨[], [], by simp [hl]⟩
  | cons c cs ih =>
    intro l hl
    by_cases hc : c = '\n'
    · rw [show splitLines (c :: cs) = [] :: splitLines cs by simp [splitLines, hc]] at hl
      rcases List.mem_cons.mp hl with h | h
      · exact ⟨[], c :: cs, by simp [h]⟩
      · obtain ⟨s, t, hst⟩ := ih l h
        exact ⟨c :: s, t, by simp only [List.cons_append, List.append_assoc] at hst ⊢; rw [hst]⟩
    · rcases hsp : splitLines cs with _ | ⟨l0, ls⟩
      · rw [show splitLines (c :: cs) = [[c]] by simp [splitLines, hc, hsp]] at hl
        simp at hl
        exact ⟨[], cs, by simp [hl]⟩
      · rw [show splitLines (c :: cs) = (c :: l0) :: ls by simp [splitLines, hc, hsp]] at hl
        rcases List.mem_cons.mp hl with h | h
        · obtain ⟨t, ht⟩ := splitLines_head_starts cs
          rw [hsp] at ht
          simp only [List.headD_cons] at ht
          exact ⟨[], t, by simp [h]; simpa using ht⟩
        · obtain ⟨s, t, hst⟩ := ih l (by rw [hsp]; exact List.mem_cons_of_mem _ h)
          exact ⟨c :: s, t, by simp only [List.cons_append, List.append_assoc] at hst ⊢; rw [hst]⟩

theorem lineName_within {l n : List Char} (h : lineName l = some n) : ∃ s t, s ++ n ++ t = l := by
  unfold lineName at h
  split at h
  · exact absurd h (by simp)
  · rename_i x1 x2 rest heq1 heq2
    have hn : n = rest.takeWhile (fun c => c ≠ ':') := by
      injection h with h2
      exact h2.symm
    have hsplit := List.take_append_drop (l.takeWhile Char.isDigit).length l
    rw [heq2] at hsplit
    have htw : rest.takeWhile (fun c => c ≠ ':') ++ rest.dropWhile (fun c => c ≠ ':') = rest :=
      List.takeWhile_append_dropWhile _ _
    refine ⟨l.take (l.takeWhile Char.isDigit).length ++ [':', ' '],
            rest.dropWhile (fun c => c ≠ ':'), ?_⟩
    rw [hn]
    simp only [List.append_assoc, List.cons_append, List.nil_append]
    rw [htw]
    exact hsplit
  · exact absurd h (by simp)

/-- C5: counterexample.  On `ipOut0` the code's probe (`output.contains("tun")`,
`lib.rs:148`) returns `true` although no interface name contains `"tun"`,
refuting "it returns false whenever no interface name contains tun,
regardless of any other text appearing in the output". -/
theorem tun_probe_counterexample :
    codeTunProbe ipOut0 = true ∧ specTunProbe ipOut0 = false := by
  constructor
  · decide
  · decide

/-- C5 (amended): the tun probe returns true iff `"tun"` occurs anywhere in
the `ip addr show` output; in particular whenever some interface name
contains `"tun"` the probe returns true, but text other than interface
names can also make it return true. -/
theorem tun_probe_name_implies_output (out : String) (h : specTunProbe out = true) :
    codeTunProbe out = true := by
  unfold specTunProbe at h
  rw [List.any_eq_true] at h
  obtain ⟨n, hn, htun⟩ := h
  unfold specInterfaceNames at hn
  rw [List.mem_filterMap] at hn
  obtain ⟨l, hl, hln⟩ := hn
  obtain ⟨s1, t1, h1⟩ := lineName_within hln
  obtain ⟨s2, t2, h2⟩ := splitLines_within out.toList l hl
  unfold strContains at htun
  have h3 : ("tun".toList : List Char) <:+: n := of_decide_eq_true htun
  obtain ⟨s0, t0, h0⟩ := h3
  unfold codeTunProbe strContains
  apply decide_eq_true
  refine ⟨s2 ++ (s1 ++ s0), (t0 ++ t1) ++ t2, ?_⟩
  rw [← h2, ← h1, ← h0]
  simp [List.append_assoc]

/-- C5 (amended) witness at a concrete output having a `tun0` interface. -/
theorem tun_probe_name_implies_output_witness :
    codeTunProbe "1: tun0: <UP,LOWER_UP> mtu 1406" = true :=
  tun_probe_name_implies_output "1: tun0: <UP,LOWER_UP> mtu 1406" (by decide)

/-- C3: `get_vpn_status` returns the conjunction of the two probe results —
whenever both probe commands execute, the result is
`Ok (process_present && output-contains-tun)` for all four combinations —
and the result does not depend on the supervisor state (ignored `_state`). -/
theorem get_vpn_status_truth_table :
    (∀ (env : StatusEnv) (s : VpnState) (p : Bool) (out : String),
        env.pgrepRun = .ok p → env.ipAddrRun = .ok out →
        get_vpn_status env s = .ok (p && strContains out "tun")) ∧
    (∀ (env : StatusEnv) (s1 s2 : VpnState),
        get_vpn_status env s1 = get_vpn_status env s2) := by
  constructor
  · intro env s p out hp hi
    unfold get_vpn_status
    rw [hp, hi]
    cases p <;> simp
  · intro env s1 s2
    rfl

/-- C3 witness at a concrete environment and two distinct states. -/
theorem get_vpn_status_truth_table_witness :
    get_vpn_status ⟨.ok true, .ok "1: tun0: <UP>"⟩ ⟨none, false, 0⟩
        = .ok (true && strContains "1: tun0: <UP>" "tun") ∧
    get_vpn_status ⟨.ok true, .ok "1: tun0: <UP>"⟩ ⟨some 7, false, 8⟩
        = get_vpn_status ⟨.ok true, .ok "1: tun0: <UP>"⟩ ⟨none, true, 0⟩ :=
  ⟨get_vpn_status_truth_table.1 ⟨.ok true, .ok "1: tun0: <UP>"⟩ ⟨none, false, 0⟩
      true "1: tun0: <UP>" rfl rfl,
   get_vpn_status_truth_table.2 ⟨.ok true, .ok "1: tun0: <UP>"⟩ ⟨some 7, false, 8⟩
      ⟨none, true, 0⟩⟩

/-- C4: counterexample.  When the pgrep command cannot be executed,
`get_vpn_status` surfaces the error to the caller (`map_err(...)?` at
`lib.rs:133`) instead of returning `false`. -/
theorem get_vpn_status_error_counterexample :
    get_vpn_status ⟨.error "No such file or directory (os error 2)", .ok "1: lo"⟩
        ⟨none, false, 0⟩
      = .error "No such file or directory (os error 2)" := rfl

/-- C4 (amended): the status monitor's probes never fail observably — any
execution error contributes `false` (`unwrap_or(false)`, `lib.rs:297-300`) —
but `get_vpn_status` propagates a probe execution error as `Err` to its
caller rather than returning `false`. -/
theorem probe_error_handling :
    (∀ (env : StatusEnv) (e : String),
        env.pgrepRun = .error e → monitorConnected env = false) ∧
    (∀ (env : StatusEnv) (e : String),
        env.ipAddrRun = .error e → monitorConnected env = false) ∧
    (∀ (env : StatusEnv) (s : VpnState) (e : String),
        env.pgrepRun = .error e → get_vpn_status env s = .error e) ∧
    (∀ (env : StatusEnv) (s : VpnState) (e : String),
        env.pgrepRun = .ok true → env.ipAddrRun = .error e →
        get_vpn_status env s = .error e) := by
  refine ⟨?_, ?_, ?_, ?_⟩
  · intro env e h
    unfold monitorConnected
    rw [h]
    simp
  · intro env e h
    unfold monitorConnected
    rw [h]
    simp
  · intro env s e h
    unfold get_vpn_status
    rw [h]
  · intro env s e hp hi
    unfold get_vpn_status
    rw [hp, hi]
    simp

/-- C4 (amended) witness at concrete failing environments. -/
theorem probe_error_handling_witness :
    monitorConnected ⟨.error "exec failed", .ok "1: lo"⟩ = false ∧
    get_vpn_status ⟨.error "exec failed", .ok "1: lo"⟩ ⟨none, false, 0⟩
      = .error "exec failed" :=
  ⟨probe_error_handling.1 ⟨.error "exec failed", .ok "1: lo"⟩ "exec failed" rfl,
   probe_error_handling.2.2.1 ⟨.error "exec failed", .ok "1: lo"⟩ ⟨none, false, 0⟩
      "exec failed" rfl⟩

theorem connect_store_child {config : VpnConfig} {env : ConnectEnv} {s : VpnState} {h : Nat}
    (hm : Event.store h ∈ (connect_vpn config env s).2.2) :
    (connect_vpn config env s).2.1.child = some h := by
  rcases env with ⟨ad, cd, ol, tc, sp, w⟩
  rcases s with ⟨ch, po, np⟩
  cases po <;> cases ad <;> cases cd <;> cases ol <;> cases tc <;> cases sp <;>
    rcases ch with _ | ch <;> rcases hpw : config.password with _ | p <;>
    simp [connect_vpn, hpw] at hm ⊢ <;> simp [hm]

theorem connect_prev_child {config : VpnConfig} {env : ConnectEnv} {s : VpnState} {h : Nat}
    (hc : s.child = some h) :
    (connect_vpn config env s).2.1.child = some h ∨
      Event.kill h ∈ (connect_vpn config env s).2.2 := by
  rcases env with ⟨ad, cd, ol, tc, sp, w⟩
  rcases s with ⟨ch, po, np⟩
  simp at hc
  subst hc
  cases po with
  | true => left; simp [connect_vpn]
  | false =>
    right
    cases ad <;> cases cd <;> cases ol <;> cases tc <;> cases sp <;> simp [connect_vpn]

theorem runConnects_inv (calls : List (VpnConfig × ConnectEnv)) :
    ∀ (s : VpnState) (h : Nat),
      (Event.store h ∈ (runConnects calls s).2 ∨ s.child = some h) →
      (runConnects calls s).1.child = some h ∨ Event.kill h ∈ (runConnects calls s).2 := by
  induction calls with
  | nil =>
    intro s h hh
    rcases hh with hm | hc
    · simp [runConnects] at hm
    · left
      simpa [runConnects] using hc
  | cons ce rest ih =>
    intro s h hh
    obtain ⟨config, env⟩ := ce
    have hfst : (runConnects ((config, env) :: rest) s).1
        = (runConnects rest (connect_vpn config env s).2.1).1 := rfl
    have hsnd : (runConnects ((config, env) :: rest) s).2
        = (connect_vpn config env s).2.2
          ++ (runConnects rest (connect_vpn config env s).2.1).2 := rfl
    rw [hfst, hsnd]
    rw [hsnd] at hh
    rcases hh with hm | hc
    · rw [List.mem_append] at hm
      rcases hm with hm1 | hm2
      · have hch := connect_store_child hm1
        rcases ih _ h (Or.inr hch) with h1 | h2
        · exact Or.inl h1
        · exact Or.inr (List.mem_append.mpr (Or.inr h2))
      · rcases ih _ h (Or.inl hm2) with h1 | h2
        · exact Or.inl h1
        · exact Or.inr (List.mem_append.mpr (Or.inr h2))
    · rcases @connect_prev_child config env s h hc with h1 | h2
      · rcases ih _ h (Or.inr h1) with h3 | h4
        · exact Or.inl h3
        · exact Or.inr (List.mem_append.mpr (Or.inr h4))
      · exact Or.inr (List.mem_append.mpr (Or.inl h2))

/-- C1: over any serialized sequence of `connect_vpn` calls started with no
retained handle, the final state retains at most one handle, and every
handle that was stored and is not the finally retained one had a kill
issued to it somewhere in the trace (the `take()`-and-kill at
`lib.rs:39-41` precedes every replacement). -/
theorem connect_at_most_one_handle (calls : List (VpnConfig × ConnectEnv)) (s0 : VpnState)
    (_h0 : s0.child = none) :
    (∀ h1 h2, (runConnects calls s0).1.child = some h1 →
        (runConnects calls s0).1.child = some h2 → h1 = h2) ∧
    (∀ h, Event.store h ∈ (runConnects calls s0).2 →
        (runConnects calls s0).1.child ≠ some h →
        Event.kill h ∈ (runConnects calls s0).2) := by
  constructor
  · intro h1 h2 e1 e2
    rw [e1] at e2
    injection e2 with e2
  · intro h hm hne
    rcases runConnects_inv calls s0 h (Or.inl hm) with hcur | hkill
    · exact absurd hcur hne
    · exact hkill

/-- C1 witness: two successful back-to-back connects; the first stored
handle 0, the final state retains handle 1, and handle 0 was killed. -/
theorem connect_at_most_one_handle_witness :
    Event.kill 0 ∈ (runConnects
        [(⟨"vpn.example.com", "alice", some "pw", some true, some false⟩,
          ⟨.ok "/data", .ok (), .ok (), .ok (), .ok (), true⟩),
         (⟨"vpn2.example.com", "bob", none, none, none⟩,
          ⟨.ok "/data", .ok (), .ok (), .ok (), .ok (), true⟩)]
        ⟨none, false, 0⟩).2 :=
  (connect_at_most_one_handle
      [(⟨"vpn.example.com", "alice", some "pw", some true, some false⟩,
        ⟨.ok "/data", .ok (), .ok (), .ok (), .ok (), true⟩),
       (⟨"vpn2.example.com", "bob", none, none, none⟩,
        ⟨.ok "/data", .ok (), .ok (), .ok (), .ok (), true⟩)]
      ⟨none, false, 0⟩ rfl).2 0 (by decide) (by decide)

/-- C2: counterexample.  With the mutex poisoned and a handle retained,
`connect_vpn` returns the lock error at `lib.rs:36` without touching the
state: `current` is still `Some 5` after the call, refuting "current is
None after every error return including the poisoned mutex". -/
theorem connect_poisoned_retains_handle :
    (connect_vpn ⟨"p", "u", none, none, none⟩
        ⟨.ok "/d", .ok (), .ok (), .ok (), .ok (), true⟩ ⟨some 5, true, 6⟩).1
      = .error "Failed to lock state" ∧
    (connect_vpn ⟨"p", "u", none, none, none⟩
        ⟨.ok "/d", .ok (), .ok (), .ok (), .ok (), true⟩ ⟨some 5, true, 6⟩).2.1.child
      = some 5 := ⟨rfl, rfl⟩

/-- C2 (amended): when the mutex is not poisoned, every error return of
`connect_vpn` (directory creation, log open, clone, or spawn failure)
leaves `current = None`, and a handle is stored exactly on the success
path; on a poisoned mutex the call errors out with the state untouched. -/
theorem connect_error_leaves_none (config : VpnConfig) (env : ConnectEnv) (s : VpnState)
    (hp : s.poisoned = false) :
    (∀ e, (connect_vpn config env s).1 = .error e →
        (connect_vpn config env s).2.1.child = none) ∧
    ((connect_vpn config env s).1 = .ok () →
        (connect_vpn config env s).2.1.child = some s.nextPid) := by
  rcases env with ⟨ad, cd, ol, tc, sp, w⟩
  rcases s with ⟨ch, po, np⟩
  simp at hp
  subst hp
  cases ad <;> cases cd <;> cases ol <;> cases tc <;> cases sp <;>
    rcases ch with _ | ch <;> simp [connect_vpn]

/-- C2 (amended) witness: a clone failure after a handle had been taken
leaves no retained handle. -/
theorem connect_error_leaves_none_witness :
    (connect_vpn ⟨"p", "u", none, none, none⟩
        ⟨.ok "/d", .ok (), .ok (), .error "disk full", .ok (), true⟩
        ⟨some 3, false, 4⟩).2.1.child = none :=
  (connect_error_leaves_none ⟨"p", "u", none, none, none⟩
      ⟨.ok "/d", .ok (), .ok (), .error "disk full", .ok (), true⟩
      ⟨some 3, false, 4⟩ rfl).1 "disk full" rfl

/-- C6: on the success path `connect_vpn` spawns exactly
`sudo openconnect --protocol=gp --passwd-on-stdin <portal> --user
<username>` with portal and username verbatim (argument vector, no shell);
when a password is present it is written newline-terminated to the child's
stdin and the stdin handle is closed immediately after; the ignored write
outcome `env.writeOk` appears only in the trace, so a failed write changes
neither the result nor the stored handle. -/
theorem connect_command_exact (config : VpnConfig) (env : ConnectEnv) (s : VpnState)
    (hp : s.poisoned = false) (hd : ∃ d, env.appDataDir = .ok d)
    (hc : env.createDirAll = .ok ()) (hl : env.openLog = .ok ())
    (ht : env.tryClone = .ok ()) (hs : env.spawn = .ok ()) :
    connect_vpn config env s =
      (.ok (), ⟨some s.nextPid, false, s.nextPid + 1⟩,
        (match s.child with | some h => [Event.kill h] | none => []) ++
          [Event.spawn "sudo"
            ["openconnect", "--protocol=gp", "--passwd-on-stdin",
             config.portal, "--user", config.username]] ++
          (match config.password with
           | some p => [Event.writeStdin (p ++ "\n") env.writeOk, Event.closeStdin]
           | none => []) ++ [Event.store s.nextPid]) := by
  obtain ⟨d, hd⟩ := hd
  rcases env with ⟨ad, cd, ol, tc, sp, w⟩
  rcases s with ⟨ch, po, np⟩
  simp at hp hd hc hl ht hs
  subst hp
  subst hd
  subst hc
  subst hl
  subst ht
  subst hs
  simp [connect_vpn, connectArgs]

/-- C6 witness: concrete success with a password and a failing stdin
write; the exact command line, the newline-terminated password write, the
stdin close, and the overall success are all visible. -/
theorem connect_command_exact_witness :
    connect_vpn ⟨"vpn.example.com", "alice", some "pw", none, none⟩
        ⟨.ok "/d", .ok (), .ok (), .ok (), .ok (), false⟩ ⟨some 3, false, 4⟩
      = (.ok (), ⟨some 4, false, 5⟩,
          [Event.kill 3,
           Event.spawn "sudo"
             ["openconnect", "--protocol=gp", "--passwd-on-stdin",
              "vpn.example.com", "--user", "alice"],
           Event.writeStdin "pw\n" false, Event.closeStdin, Event.store 4]) := by
  simpa using connect_command_exact
    ⟨"vpn.example.com", "alice", some "pw", none, none⟩
    ⟨.ok "/d", .ok (), .ok (), .ok (), .ok (), false⟩ ⟨some 3, false, 4⟩
    rfl ⟨"/d", rfl⟩ rfl rfl rfl rfl

/-- C7: `disconnect_vpn` performs, in order, the privileged soft kill, a
300 ms sleep, the privileged hard kill, and only then kills and drops any
retained handle; it returns success whatever the outcomes of the two
privileged kills (they occur in the trace only). -/
theorem disconnect_sequence (env : DisconnectEnv) (s : VpnState) (hp : s.poisoned = false) :
    disconnect_vpn env s =
      (.ok (), ⟨none, false, s.nextPid⟩,
        [Event.ranCmd "sudo" ["-n", "/usr/bin/pkill", "-f", "openconnect"] env.softKill,
         Event.sleepMs 300,
         Event.ranCmd "sudo" ["-n", "/usr/bin/pkill", "-9", "-f", "openconnect"] env.hardKill] ++
          (match s.child with | some h => [Event.kill h] | none => [])) := by
  rcases s with ⟨ch, po, np⟩
  simp at hp
  subst hp
  rcases ch with _ | h <;> simp [disconnect_vpn]

/-- C7 witness: both privileged kills fail or report failure, yet the call
returns success and still kills the retained handle afterwards. -/
theorem disconnect_sequence_witness :
    disconnect_vpn ⟨.error "sudo: a password is required", .ok false⟩ ⟨some 9, false, 10⟩
      = (.ok (), ⟨none, false, 10⟩,
         [Event.ranCmd "sudo" ["-n", "/usr/bin/pkill", "-f", "openconnect"]
            (.error "sudo: a password is required"),
          Event.sleepMs 300,
          Event.ranCmd "sudo" ["-n", "/usr/bin/pkill", "-9", "-f", "openconnect"] (.ok false),
          Event.kill 9]) := by
  simpa using disconnect_sequence
    ⟨.error "sudo: a password is required", .ok false⟩ ⟨some 9, false, 10⟩ rfl

/-- C10: `disconnect_vpn` with no retained handle still runs both
privileged kill commands and returns success; any number of consecutive
calls all return success; and an error return is possible only when the
mutex is poisoned. -/
theorem disconnect_always_ok :
    (∀ (env : DisconnectEnv) (s : VpnState), s.poisoned = false → s.child = none →
        (disconnect_vpn env s).1 = .ok () ∧
        Event.ranCmd "sudo" ["-n", "/usr/bin/pkill", "-f", "openconnect"] env.softKill
          ∈ (disconnect_vpn env s).2.2 ∧
        Event.ranCmd "sudo" ["-n", "/usr/bin/pkill", "-9", "-f", "openconnect"] env.hardKill
          ∈ (disconnect_vpn env s).2.2) ∧
    (∀ (envs : List DisconnectEnv) (s : VpnState), s.poisoned = false →
        ∀ r ∈ (runDisconnects envs s).1, r = .ok ()) ∧
    (∀ (env : DisconnectEnv) (s : VpnState) (e : String),
        (disconnect_vpn env s).1 = .error e → s.poisoned = true) := by
  refine ⟨?_, ?_, ?_⟩
  · intro env s hp hc
    rcases s with ⟨ch, po, np⟩
    simp at hp hc
    subst hp
    subst hc
    simp [disconnect_vpn]
  · intro envs
    induction envs with
    | nil =>
      intro s hp r hr
      simp [runDisconnects] at hr
    | cons env rest ih =>
      intro s hp r hr
      have hpres : (disconnect_vpn env s).2.1.poisoned = s.poisoned := by
        rcases s with ⟨ch, po, np⟩
        rcases ch with _ | h <;> cases po <;> simp [disconnect_vpn]
      have hfst : (runDisconnects (env :: rest) s).1
          = (disconnect_vpn env s).1 :: (runDisconnects rest (disconnect_vpn env s).2.1).1 := rfl
      rw [hfst] at hr
      rcases List.mem_cons.mp hr with h1 | h2
      · subst h1
        rcases s with ⟨ch, po, np⟩
        simp at hp
        subst hp
        rcases ch with _ | h <;> simp [disconnect_vpn]
      · exact ih _ (by rw [hpres]; exact hp) r h2
  · intro env s e h
    by_contra hpo
    rcases s with ⟨ch, po, np⟩
    simp at hpo
    subst hpo
    rcases ch with _ | hh <;> simp [disconnect_vpn] at h

/-- C10 witness: no retained handle, soft kill failing to run, hard kill
reporting failure — the call still returns success and both privileged
kill commands are in the trace. -/
theorem disconnect_always_ok_witness :
    (disconnect_vpn ⟨.error "denied", .ok false⟩ ⟨none, false, 0⟩).1 = .ok () ∧
    Event.ranCmd "sudo" ["-n", "/usr/bin/pkill", "-f", "openconnect"] (.error "denied")
      ∈ (disconnect_vpn ⟨.error "denied", .ok false⟩ ⟨none, false, 0⟩).2.2 ∧
    Event.ranCmd "sudo" ["-n", "/usr/bin/pkill", "-9", "-f", "openconnect"] (.ok false)
      ∈ (disconnect_vpn ⟨.error "denied", .ok false⟩ ⟨none, false, 0⟩).2.2 :=
  disconnect_always_ok.1 ⟨.error "denied", .ok false⟩ ⟨none, false, 0⟩ rfl rfl

/-- C9: the monitor is edge-triggered.  A tick whose derived `connected`
equals the previous value emits only the menu-text update — no notification
and no tray-icon event — and leaves `last_connected` unchanged; a changing
tick commits `last_connected` and emits at most one notification (none when
notifications are disabled); over a sequence of probe results a stuttering
head contributes only its menu-text event to the trace. -/
theorem monitor_edge_triggered :
    (∀ (env : TickEnv) (b : Bool),
        (monitorTick env b b).1
          = [.setText (if b then "Status: Connected ✅" else "Status: Disconnected ❌")] ∧
        (monitorTick env b b).2 = b) ∧
    (∀ (env : TickEnv) (last c : Bool), c ≠ last →
        (monitorTick env last c).2 = c ∧
        (monitorTick env last c).1.countP isNotifyEv ≤ 1 ∧
        ((env.cfgRead.bind (fun k => k.notifications_enabled)).getD true = false →
          (monitorTick env last c).1.countP isNotifyEv = 0)) ∧
    (∀ (env : TickEnv) (last : Bool) (rest : List Bool),
        runMonitor env last (last :: rest)
          = (MEvent.setText
                (if last then "Status: Connected ✅" else "Status: Disconnected ❌")
                :: (runMonitor env last rest).1,
             (runMonitor env last rest).2)) ∧
    (∀ (env : TickEnv) (b : Bool) (e : MEvent), e ∈ (monitorTick env b b).1 →
        isNotifyEv e = false ∧ isIconEv e = false) := by
  have htick : ∀ (env : TickEnv) (b : Bool),
      monitorTick env b b
        = ([.setText (if b then "Status: Connected ✅" else "Status: Disconnected ❌")], b) := by
    intro env b
    unfold monitorTick
    rw [if_pos rfl]
  refine ⟨?_, ?_, ?_, ?_⟩
  · intro env b
    rw [htick]
    exact ⟨rfl, rfl⟩
  · intro env last c hne
    unfold monitorTick
    rw [if_neg hne]
    refine ⟨rfl, ?_, ?_⟩
    · cases hb : (env.cfgRead.bind fun k => k.notifications_enabled).getD true <;>
        cases c <;> cases env.trayFound <;> cases env.iconLoadOk <;>
        simp [hb, isNotifyEv, List.countP_cons]
    · intro hb
      cases c <;> cases env.trayFound <;> cases env.iconLoadOk <;>
        simp [hb, isNotifyEv, List.countP_cons]
  · intro env last rest
    conv_lhs => rw [runMonitor]
    rw [htick]
    simp
  · intro env b e he
    rw [htick] at he
    simp at he
    subst he
    exact ⟨rfl, rfl⟩

/-- C9 witness: concrete stuttering and changing ticks, and a stuttering
head of a sequence. -/
theorem monitor_edge_triggered_witness :
    ((monitorTick ⟨none, true, true⟩ false false).1 = [.setText "Status: Disconnected ❌"] ∧
      (monitorTick ⟨none, true, true⟩ false false).2 = false) ∧
    (monitorTick ⟨none, true, true⟩ false true).2 = true ∧
    runMonitor ⟨none, true, true⟩ false [false, true]
      = (MEvent.setText "Status: Disconnected ❌" :: (runMonitor ⟨none, true, true⟩ false [true]).1,
         (runMonitor ⟨none, true, true⟩ false [true]).2) :=
  ⟨monitor_edge_triggered.1 ⟨none, true, true⟩ false,
   (monitor_edge_triggered.2.1 ⟨none, true, true⟩ false true (by decide)).1,
   monitor_edge_triggered.2.2.1 ⟨none, true, true⟩ false [true]⟩


theorem hexVal_hexDigit : ∀ n, n < 16 → hexVal (hexDigit n) = some n := by decide

theorem parse_escape (s : List Char) (r : List Char) :
    parseStringBody (escapeList s ++ '"' :: r) = some (s, r) := by
  induction s with
  | nil => rfl
  | cons c cs ih =>
    rw [show escapeList (c :: cs) = escChar c ++ escapeList cs from rfl, List.append_assoc]
    by_cases hq : c = '"'
    · subst hq
      rw [show escChar '"' = ['\\', '"'] from rfl]
      simp only [List.cons_append, List.nil_append]
      rw [parseStringBody.eq_4 _ _ (by intro d1 d2 d3 d4 r1 h; exact absurd h (by decide))]
      rw [ih]; rfl
    · by_cases hb : c = '\\'
      · subst hb
        rw [show escChar '\\' = ['\\', '\\'] from rfl]
        simp only [List.cons_append, List.nil_append]
        rw [parseStringBody.eq_4 _ _ (by intro d1 d2 d3 d4 r1 h; exact absurd h (by decide))]
        rw [ih]; rfl
      · by_cases hlt : c.toNat < 32
        · by_cases h8 : c = Char.ofNat 8
          · subst h8
            rw [show escChar (Char.ofNat 8) = ['\\', 'b'] from rfl]
            simp only [List.cons_append, List.nil_append]
            rw [parseStringBody.eq_4 _ _ (by intro d1 d2 d3 d4 r1 h; exact absurd h (by decide))]
            rw [ih]; rfl
          · by_cases ht : c = '\t'
            · subst ht
              rw [show escChar '\t' = ['\\', 't'] from rfl]
              simp only [List.cons_append, List.nil_append]
              rw [parseStringBody.eq_4 _ _ (by intro d1 d2 d3 d4 r1 h; exact absurd h (by decide))]
              rw [ih]; rfl
            · by_cases hn : c = '\n'
              · subst hn
                rw [show escChar '\n' = ['\\', 'n'] from rfl]
                simp only [List.cons_append, List.nil_append]
                rw [parseStringBody.eq_4 _ _ (by intro d1 d2 d3 d4 r1 h; exact absurd h (by decide))]
                rw [ih]; rfl
              · by_cases h12 : c = Char.ofNat 12
                · subst h12
                  rw [show escChar (Char.ofNat 12) = ['\\', 'f'] from rfl]
                  simp only [List.cons_append, List.nil_append]
                  rw [parseStringBody.eq_4 _ _
                    (by intro d1 d2 d3 d4 r1 h; exact absurd h (by decide))]
                  rw [ih]; rfl
                · by_cases hr : c = '\r'
                  · subst hr
                    rw [show escChar '\r' = ['\\', 'r'] from rfl]
                    simp only [List.cons_append, List.nil_append]
                    rw [parseStringBody.eq_4 _ _
                      (by intro d1 d2 d3 d4 r1 h; exact absurd h (by decide))]
                    rw [ih]; rfl
                  · have hesc : escChar c
                        = ['\\', 'u', '0', '0', hexDigit (c.toNat / 16), hexDigit (c.toNat % 16)] := by
                      unfold escChar
                      rw [if_neg hq, if_neg hb, if_pos hlt, if_neg h8, if_neg ht, if_neg hn,
                        if_neg h12, if_neg hr]
                    rw [hesc]
                    simp only [List.cons_append, List.nil_append]
                    rw [parseStringBody.eq_3]
                    have hhi : hexVal (hexDigit (c.toNat / 16)) = some (c.toNat / 16) :=
                      hexVal_hexDigit _ (by omega)
                    have hlo : hexVal (hexDigit (c.toNat % 16)) = some (c.toNat % 16) :=
                      hexVal_hexDigit _ (by omega)
                    rw [show hexVal '0' = some 0 from rfl, hhi, hlo]
                    have hch : Char.ofNat
                        (((0 * 16 + 0) * 16 + c.toNat / 16) * 16 + c.toNat % 16) = c := by
                      have harith : ((0 * 16 + 0) * 16 + c.toNat / 16) * 16 + c.toNat % 16
                          = c.toNat := by omega
                      rw [harith, Char.ofNat_toNat]
                    simp only [ih, hch]
        · have hesc : escChar c = [c] := by
            unfold escChar
            rw [if_neg hq, if_neg hb, if_neg hlt]
          rw [hesc]
          simp only [List.cons_append, List.nil_append]
          rw [parseStringBody.eq_5 _ _ (fun h => hq h)
            (by intro d1 d2 d3 d4 r1 h _; exact hb h)
            (by intro e r1 h _; exact hb h)]
          rw [ih]

theorem parseValue_renderString (s : String) (r : List Char) :
    parseValue (renderString s ++ r) = some (.str s, r) := by
  have h : renderString s ++ r = '"' :: (escapeList s.toList ++ '"' :: r) := by
    unfold renderString
    simp
  rw [h, parseValue.eq_1, parse_escape]
  rfl

theorem parseValue_optStr (os : Option String) (r : List Char) :
    parseValue (renderOptStr os ++ r) = some (optStrToJVal os, r) := by
  cases os with
  | none => rfl
  | some s => exact parseValue_renderString s r

theorem parseValue_optBool (ob : Option Bool) (r : List Char) :
    parseValue (renderOptBool ob ++ r) = some (optBoolToJVal ob, r) := by
  cases ob with
  | none => rfl
  | some b => cases b <;> rfl


theorem asOptStr_optStrToJVal (os : Option String) : asOptStr (optStrToJVal os) = some os := by
  cases os <;> rfl

theorem asOptBool_optBoolToJVal (ob : Option Bool) : asOptBool (optBoolToJVal ob) = some ob := by
  cases ob <;> rfl

theorem keyPortal (X : List Char) :
    parseStringBody (lit "portal\":" ++ X) = some (lit "portal", ':' :: X) := rfl

theorem keyUsername (X : List Char) :
    parseStringBody (lit "username\":" ++ X) = some (lit "username", ':' :: X) := rfl

theorem keyPassword (X : List Char) :
    parseStringBody (lit "password\":" ++ X) = some (lit "password", ':' :: X) := rfl

theorem keyNotif (X : List Char) :
    parseStringBody (lit "notifications_enabled\":" ++ X)
      = some (lit "notifications_enabled", ':' :: X) := rfl

theorem keyAuto (X : List Char) :
    parseStringBody (lit "auto_connect\":" ++ X) = some (lit "auto_connect", ':' :: X) := rfl

theorem stepPortal (acc : CfgFields) (hacc : acc.portal = none) (p : String) (X : List Char) :
    parsePairStep (lit "\"portal\":" ++ (renderString p ++ ',' :: X)) acc
      = some (.more X { acc with portal := some p }) := by
  rw [show lit "\"portal\":" ++ (renderString p ++ ',' :: X)
      = '"' :: (lit "portal\":" ++ (renderString p ++ ',' :: X)) from rfl]
  rw [parsePairStep.eq_1, keyPortal]
  simp only [parseValue_renderString]
  simp only [setField, hacc]
  rfl


theorem stepUsername (acc : CfgFields) (hacc : acc.username = none) (u : String) (X : List Char) :
    parsePairStep (lit "\"username\":" ++ (renderString u ++ ',' :: X)) acc
      = some (.more X { acc with username := some u }) := by
  rw [show lit "\"username\":" ++ (renderString u ++ ',' :: X)
      = '"' :: (lit "username\":" ++ (renderString u ++ ',' :: X)) from rfl]
  rw [parsePairStep.eq_1, keyUsername]
  simp only [parseValue_renderString]
  simp only [setField, hacc]
  rfl

theorem stepPassword (acc : CfgFields) (hacc : acc.password = none)
    (pw : Option String) (X : List Char) :
    parsePairStep (lit "\"password\":" ++ (renderOptStr pw ++ ',' :: X)) acc
      = some (.more X { acc with password := some pw }) := by
  rw [show lit "\"password\":" ++ (renderOptStr pw ++ ',' :: X)
      = '"' :: (lit "password\":" ++ (renderOptStr pw ++ ',' :: X)) from rfl]
  rw [parsePairStep.eq_1, keyPassword]
  simp only [parseValue_optStr]
  simp only [setField, hacc, asOptStr_optStrToJVal]
  rfl

theorem stepNotif (acc : CfgFields) (hacc : acc.notifications_enabled = none)
    (ne : Option Bool) (X : List Char) :
    parsePairStep (lit "\"notifications_enabled\":" ++ (renderOptBool ne ++ ',' :: X)) acc
      = some (.more X { acc with notifications_enabled := some ne }) := by
  rw [show lit "\"notifications_enabled\":" ++ (renderOptBool ne ++ ',' :: X)
      = '"' :: (lit "notifications_enabled\":" ++ (renderOptBool ne ++ ',' :: X)) from rfl]
  rw [parsePairStep.eq_1, keyNotif]
  simp only [parseValue_optBool]
  simp only [setField, hacc, asOptBool_optBoolToJVal]
  rfl

theorem stepAuto (acc : CfgFields) (hacc : acc.auto_connect = none) (ac : Option Bool) :
    parsePairStep (lit "\"auto_connect\":" ++ (renderOptBool ac ++ [rbrace])) acc
      = some (.done { acc with auto_connect := some ac }) := by
  rw [show lit "\"auto_connect\":" ++ (renderOptBool ac ++ [rbrace])
      = '"' :: (lit "auto_connect\":" ++ (renderOptBool ac ++ [rbrace])) from rfl]
  rw [parsePairStep.eq_1, keyAuto]
  simp only [parseValue_optBool]
  simp only [setField, hacc, asOptBool_optBoolToJVal]
  rfl

theorem parsePairs_mono {f : Nat} : ∀ {f2 : Nat}, f ≤ f2 → ∀ {cs : List Char} {acc r : CfgFields},
    parsePairs f cs acc = some r → parsePairs f2 cs acc = some r := by
  induction f with
  | zero =>
    intro f2 _ cs acc r h
    simp [parsePairs] at h
  | succ n ih =>
    intro f2 hle cs acc r h
    obtain ⟨m, rfl⟩ : ∃ m, f2 = m + 1 := ⟨f2 - 1, by omega⟩
    simp only [parsePairs] at h ⊢
    cases hstep : parsePairStep cs acc with
    | none =>
      rw [hstep] at h
      simp at h
    | some st =>
      cases st with
      | done acc2 =>
        rw [hstep] at h
        dsimp only at h ⊢
        exact h
      | more r4 acc2 =>
        rw [hstep] at h
        dsimp only at h ⊢
        exact ih (by omega) h


theorem parsePairs_encode (p u : String) (pw : Option String) (ne ac : Option Bool) :
    parsePairs 5
      (lit "\"portal\":" ++ (renderString p ++ ',' ::
        (lit "\"username\":" ++ (renderString u ++ ',' ::
          (lit "\"password\":" ++ (renderOptStr pw ++ ',' ::
            (lit "\"notifications_enabled\":" ++ (renderOptBool ne ++ ',' ::
              (lit "\"auto_connect\":" ++ (renderOptBool ac ++ [rbrace])))))))))) {}
      = some ⟨some p, some u, some pw, some ne, some ac⟩ := by
  show parsePairs (Nat.succ 4) _ _ = _
  rw [parsePairs.eq_2, stepPortal {} rfl]
  dsimp only
  show parsePairs (Nat.succ 3) _ _ = _
  rw [parsePairs.eq_2, stepUsername ⟨some p, none, none, none, none⟩ rfl]
  dsimp only
  show parsePairs (Nat.succ 2) _ _ = _
  rw [parsePairs.eq_2, stepPassword ⟨some p, some u, none, none, none⟩ rfl]
  dsimp only
  show parsePairs (Nat.succ 1) _ _ = _
  rw [parsePairs.eq_2, stepNotif ⟨some p, some u, some pw, none, none⟩ rfl]
  dsimp only
  show parsePairs (Nat.succ 0) _ _ = _
  rw [parsePairs.eq_2, stepAuto ⟨some p, some u, some pw, some ne, none⟩ rfl]

theorem parse_encode (c : VpnConfig) : parseConfigList (encodeConfig c) = some c := by
  obtain ⟨p, u, pw, ne, ac⟩ := c
  have hshape : encodeConfig ⟨p, u, pw, ne, ac⟩
      = lbrace :: (lit "\"portal\":" ++ (renderString p ++ ',' ::
          (lit "\"username\":" ++ (renderString u ++ ',' ::
            (lit "\"password\":" ++ (renderOptStr pw ++ ',' ::
              (lit "\"notifications_enabled\":" ++ (renderOptBool ne ++ ',' ::
                (lit "\"auto_connect\":" ++ (renderOptBool ac ++ [rbrace])))))))))) := by
    unfold encodeConfig
    rw [show lit ",\"username\":" = ',' :: lit "\"username\":" from rfl,
        show lit ",\"password\":" = ',' :: lit "\"password\":" from rfl,
        show lit ",\"notifications_enabled\":" = ',' :: lit "\"notifications_enabled\":" from rfl,
        show lit ",\"auto_connect\":" = ',' :: lit "\"auto_connect\":" from rfl]
    simp only [List.append_assoc, List.cons_append]
  rw [hshape, parseConfigList.eq_def]
  dsimp only
  rw [if_pos rfl]
  have hlen : 5 ≤ (lit "\"portal\":" ++ (renderString p ++ ',' ::
      (lit "\"username\":" ++ (renderString u ++ ',' ::
        (lit "\"password\":" ++ (renderOptStr pw ++ ',' ::
          (lit "\"notifications_enabled\":" ++ (renderOptBool ne ++ ',' ::
            (lit "\"auto_connect\":" ++ (renderOptBool ac ++ [rbrace])))))))))).length + 1 := by
    rw [List.length_append]
    have h9 : (lit "\"portal\":").length = 9 := rfl
    omega
  rw [parsePairs_mono hlen (parsePairs_encode p u pw ne ac)]
  rfl

/-- C8: config round trip.  Whenever `save_config` succeeds (and the
subsequent read succeeds), `load_config` under the same app-data directory
returns `Some c` with all five fields equal — the serialized JSON parses
back to the identical record for arbitrary UTF-8 portal/username/password
strings; and `load_config` on an absent file returns `Ok None`, not an
error. -/
theorem config_round_trip :
    (∀ (env : ConfigEnv) (c : VpnConfig) (fs fs2 : Fs),
        env.readFile = .ok () →
        save_config env c fs = .ok fs2 →
        load_config env fs2 = .ok (some c)) ∧
    (∀ (env : ConfigEnv) (fs : Fs) (d : String),
        env.appDataDir = .ok d → fsRead fs (configPath d) = none →
        load_config env fs = .ok none) := by
  constructor
  · intro env c fs fs2 hr hs
    rcases env with ⟨ad, cda, wf, rf⟩
    simp at hr
    subst hr
    cases ad with
    | error e => simp [save_config] at hs
    | ok dir =>
      cases cda with
      | error e => simp [save_config] at hs
      | ok uc =>
        cases wf with
        | error e => simp [save_config] at hs
        | ok uw =>
          simp [save_config] at hs
          subst hs
          have hp : parseConfig (toJsonString c) = some c := parse_encode c
          simp [load_config, fsRead, hp]
  · intro env fs d had hnone
    rcases env with ⟨ad, cda, wf, rf⟩
    simp at had
    subst had
    simp [load_config, hnone]

/-- C8 witness: a concrete config with all five fields populated saved
into an empty filesystem and loaded back, and a load from an absent file. -/
theorem config_round_trip_witness :
    load_config ⟨.ok "/data", .ok (), .ok (), .ok ()⟩
        [(configPath "/data",
          toJsonString ⟨"vpn.example.com", "alice", some "s3cr3t!", some false, some true⟩)]
      = .ok (some ⟨"vpn.example.com", "alice", some "s3cr3t!", some false, some true⟩) ∧
    load_config ⟨.ok "/data", .ok (), .ok (), .ok ()⟩ [] = .ok none :=
  ⟨config_round_trip.1 ⟨.ok "/data", .ok (), .ok (), .ok ()⟩
      ⟨"vpn.example.com", "alice", some "s3cr3t!", some false, some true⟩ [] _ rfl rfl,
   config_round_trip.2 ⟨.ok "/data", .ok (), .ok (), .ok ()⟩ [] "/data" rfl rfl⟩

end GP
